import Mathlib

/-!
Shallow embedding of the two near-duplicate Docker monitor scripts of this
repository, monitor.py and monitorfree.py.  Python floats are modelled as
exact rationals, a raised exception as the value none, and each source
function keeps its Python name inside the namespace of its file.  The Py
namespace models the Python builtins the scripts use.
-/

namespace Py

/-- Value of a decimal digit character. -/
def digitVal (c : Char) : ℕ := c.toNat - '0'.toNat

/-- Numeric value of a list of decimal digit characters. -/
def digitsVal (l : List Char) : ℕ := l.foldl (fun a c => 10 * a + digitVal c) 0

/-- Python str.strip with no argument: remove whitespace from both ends. -/
def strip (l : List Char) : List Char :=
  ((l.dropWhile Char.isWhitespace).reverse.dropWhile Char.isWhitespace).reverse

/-- Unsigned decimal numeral: digits with an optional fractional part, at
least one digit overall.  Used by the model of the Python float builtin. -/
def floatMag (l : List Char) : Option ℚ :=
  let intPart := l.takeWhile Char.isDigit
  let afterInt := l.dropWhile Char.isDigit
  if afterInt = [] then
    if intPart = [] then none else some (digitsVal intPart : ℚ)
  else if afterInt.head? = some '.' then
    let fracPart := afterInt.tail.takeWhile Char.isDigit
    let afterFrac := afterInt.tail.dropWhile Char.isDigit
    if afterFrac = [] ∧ (intPart ≠ [] ∨ fracPart ≠ []) then
      some ((digitsVal intPart : ℚ) + (digitsVal fracPart : ℚ) / (10 : ℚ) ^ fracPart.length)
    else none
  else none

/-- Python float(str): strip whitespace, then parse an optionally signed
decimal numeral; none models a raised ValueError.  Exponent, infinity, nan
and underscore forms are omitted: no input in this development uses them. -/
def float (l : List Char) : Option ℚ :=
  if (strip l).head? = some '-' then (floatMag (strip l).tail).map (fun m => -m)
  else if (strip l).head? = some '+' then floatMag (strip l).tail
  else floatMag (strip l)

/-- Python substring test (pat in s) for the two-character pattern ab. -/
def contains2 (a b : Char) : List Char → Bool
  | x :: y :: rest => (x == a && y == b) || contains2 a b (y :: rest)
  | _ => false

/-- Python str.replace(ab, empty string) for a two-character pattern: delete
every non-overlapping occurrence, leftmost first. -/
def replace2 (a b : Char) : List Char → List Char
  | x :: y :: rest =>
      if x == a && y == b then replace2 a b rest
      else x :: replace2 a b (y :: rest)
  | l => l

/-- Python int() applied to a rational: truncation toward zero. -/
def int (q : ℚ) : ℤ := if 0 ≤ q then ⌊q⌋ else ⌈q⌉

/-- Python str.split on a newline: split a character list at newline
characters, keeping empty pieces, as str.split with an argument does. -/
def splitLines : List Char → List (List Char)
  | [] => [[]]
  | c :: rest =>
      match splitLines rest with
      | [] => [[]]
      | cur :: more => if c == '\n' then [] :: cur :: more else (c :: cur) :: more

end Py

/-- One line of docker images json output, restricted to the fields the
scripts read. -/
structure ImageRec where
  Repository : String
  Tag : String
  Size : String
deriving DecidableEq

/-- One line of docker ps json output, restricted to the fields the scripts
read. -/
structure ContainerRec where
  Names : String
  Image : String
  Status : String
  State : String
deriving DecidableEq

/-- The four counts printed by the summary section. -/
structure Summary where
  imageCount : ℕ
  containerCount : ℕ
  running : ℕ
  stopped : ℕ
deriving DecidableEq

/-- The three colour bands of the percentage bars. -/
inductive BarColor
  | green
  | yellow
  | red
deriving DecidableEq

/-- A rendered bar, reduced to the data it draws: how many filled and how
many empty cells, and its colour band. -/
structure Bar where
  filled : ℤ
  empty : ℤ
  color : BarColor
deriving DecidableEq

/-- One body line of an images panel: a data row, or the explicit
no-images placeholder line. -/
inductive ImageLine
  | row (repo tag size : String) (bar : Bar)
  | noImages
deriving DecidableEq

/-- One body line of a containers panel: a data row, or the explicit
no-containers placeholder line. -/
inductive ContainerLine
  | row (name image status state : String)
  | noContainers
deriving DecidableEq

/-- Observable outcome of running main: whether the startup error message
was printed, whether the polling loop was entered, and the process exit
status. -/
structure MainOutcome where
  printedError : Bool
  enteredLoop : Bool
  exitCode : ℕ
deriving DecidableEq

/-- All-or-nothing effectful map: models a Python loop that appends f a for
each element and lets the first raised exception abort the whole loop, so
that nothing accumulated so far survives. -/
def optTraverse {α β : Type} (f : α → Option β) : List α → Option (List β)
  | [] => some []
  | a :: rest =>
      match f a, optTraverse f rest with
      | some b, some bs => some (b :: bs)
      | _, _ => none

/-- Python max over a nonempty list of rationals.  The empty case is never
reached by the guarded call sites; it is given the harmless value 0. -/
def listMax : List ℚ → ℚ
  | [] => 0
  | x :: xs => xs.foldl max x

/-- Shared body of the six query functions (get_docker_images,
get_docker_containers, get_container_stats in each file): with check=True a
non-zero exit raises CalledProcessError and the bare except returns the
empty list; otherwise stdout is stripped and split into lines, empty lines
are skipped, and each remaining line is json-loaded, any parse failure
aborting the whole call to the empty list.  The external json.loads is
abstracted as the loads argument. -/
def queryShape {J : Type} (loads : List Char → Option J) (exitcode : ℕ)
    (stdout : String) : List J :=
  if exitcode ≠ 0 then []
  else
    match optTraverse loads
        ((Py.splitLines (Py.strip stdout.data)).filter (fun l => !l.isEmpty)) with
    | none => []
    | some js => js

namespace Monitor

/-- monitor.py parse_size (lines 82 to 91): convert a Docker size string to
megabytes.  none models the ValueError that the float builtin raises when
the text left after deleting the unit is not a numeral. -/
def parse_size (size_str : String) : Option ℚ :=
  let s := Py.strip size_str.data
  if Py.contains2 'G' 'B' s then
    (Py.float (Py.replace2 'G' 'B' s)).map (fun v => v * 1024)
  else if Py.contains2 'M' 'B' s then
    Py.float (Py.replace2 'M' 'B' s)
  else if Py.contains2 'K' 'B' s then
    (Py.float (Py.replace2 'K' 'B' s)).map (fun v => v / 1024)
  else
    some 0

/-- monitor.py create_colored_bar (lines 93 to 107), reduced to the data it
draws.  The source default width of 20 is always overridden at call sites,
so width is passed explicitly here. -/
def create_colored_bar (percentage : ℚ) (width : ℤ) : Bar :=
  let filled := Py.int (percentage / 100 * (width : ℚ))
  { filled := filled
    empty := width - filled
    color :=
      if percentage < 50 then BarColor.green
      else if percentage < 75 then BarColor.yellow
      else BarColor.red }

/-- monitor.py display_summary (lines 116 to 126): the counts it prints. -/
def display_summary (images : List ImageRec) (containers : List ContainerRec) : Summary :=
  let running := containers.countP (fun c => c.State == "running")
  { imageCount := images.length
    containerCount := containers.length
    running := running
    stopped := containers.length - running }

/-- monitor.py display_images (lines 134 to 145), bar percentages only: the
maximum is taken over the full fetched list, then the table shows the first
eight rows, each size divided by that maximum when it is positive. -/
def display_images_percents (images : List ImageRec) : Option (List ℚ) :=
  if images.isEmpty then some []
  else
    match optTraverse (fun img => parse_size img.Size) images with
    | none => none
    | some sizes =>
        let max_size := listMax sizes
        optTraverse (fun img => (parse_size img.Size).map
            (fun size_mb => if max_size > 0 then size_mb / max_size * 100 else 0))
          (images.take 8)

/-- monitor.py display_images (lines 128 to 148) as the list of body lines
it prints: data rows for the first eight images, or the explicit
no-images-found placeholder when the list is empty. -/
def display_images_body (images : List ImageRec) : Option (List ImageLine) :=
  if images.isEmpty then some [ImageLine.noImages]
  else
    match display_images_percents images with
    | none => none
    | some ps =>
        some (((images.take 8).zip ps).map (fun ip =>
          ImageLine.row (ip.1.Repository.take 28) (ip.1.Tag.take 13) ip.1.Size
            (create_colored_bar ip.2 15)))

/-- monitor.py display_containers (lines 150 to 165) as the list of body
lines it prints: one row per container among the first ten.  The source has
no empty-state branch, so an empty input yields no lines at all. -/
def display_containers_body (containers : List ContainerRec) : List ContainerLine :=
  (containers.take 10).map (fun c =>
    ContainerLine.row (c.Names.take 23) (c.Image.take 23) (c.Status.take 18) c.State)

/-- monitor.py display_stats inline percentage conversion (lines 181 and
182): float applied to the value with trailing percent signs stripped.
none models the ValueError raised on malformed text. -/
def parse_percent (display : String) : Option ℚ :=
  Py.float ((display.data.reverse.dropWhile (fun c => c == '%')).reverse)

/-- monitor.py get_docker_images (lines 31 to 46); see queryShape. -/
def get_docker_images {J : Type} (loads : List Char → Option J) (exitcode : ℕ)
    (stdout : String) : List J :=
  if exitcode ≠ 0 then []
  else
    match optTraverse loads
        ((Py.splitLines (Py.strip stdout.data)).filter (fun l => !l.isEmpty)) with
    | none => []
    | some js => js

/-- monitor.py get_docker_containers (lines 48 to 63); see queryShape. -/
def get_docker_containers {J : Type} (loads : List Char → Option J) (exitcode : ℕ)
    (stdout : String) : List J :=
  if exitcode ≠ 0 then []
  else
    match optTraverse loads
        ((Py.splitLines (Py.strip stdout.data)).filter (fun l => !l.isEmpty)) with
    | none => []
    | some js => js

/-- monitor.py get_container_stats (lines 65 to 80); see queryShape. -/
def get_container_stats {J : Type} (loads : List Char → Option J) (exitcode : ℕ)
    (stdout : String) : List J :=
  if exitcode ≠ 0 then []
  else
    match optTraverse loads
        ((Py.splitLines (Py.strip stdout.data)).filter (fun l => !l.isEmpty)) with
    | none => []
    | some js => js

/-- monitor.py main (lines 190 to 218): the docker version probe guards the
loop.  On probe failure it prints the error message and plainly returns, so
the interpreter exits with status 0.  On the loop path only
KeyboardInterrupt is caught: loopRaises abstracts whether an iteration of
the loop body raises some other uncaught exception (for example the
ValueError of parse_size on malformed size text), in which case the
exception propagates out of main and the interpreter exits with status 1;
a user interrupt is caught, prints the farewell and returns with status 0. -/
def main (dockerAvailable : Bool) (loopRaises : Bool) : MainOutcome :=
  if dockerAvailable then
    { printedError := false, enteredLoop := true,
      exitCode := if loopRaises then 1 else 0 }
  else
    { printedError := true, enteredLoop := false, exitCode := 0 }

end Monitor

namespace MonitorFree

/-- monitorfree.py parse_size (lines 70 to 79): identical to the monitor.py
function. -/
def parse_size (size_str : String) : Option ℚ :=
  let s := Py.strip size_str.data
  if Py.contains2 'G' 'B' s then
    (Py.float (Py.replace2 'G' 'B' s)).map (fun v => v * 1024)
  else if Py.contains2 'M' 'B' s then
    Py.float (Py.replace2 'M' 'B' s)
  else if Py.contains2 'K' 'B' s then
    (Py.float (Py.replace2 'K' 'B' s)).map (fun v => v / 1024)
  else
    some 0

/-- monitorfree.py create_bar (lines 81 to 93), reduced to the data it
draws; the computation coincides with monitor.py create_colored_bar. -/
def create_bar (percentage : ℚ) (width : ℤ) : Bar :=
  let filled := Py.int (percentage / 100 * (width : ℚ))
  { filled := filled
    empty := width - filled
    color :=
      if percentage < 50 then BarColor.green
      else if percentage < 75 then BarColor.yellow
      else BarColor.red }

/-- monitorfree.py generate_display summary section (lines 126 to 136): the
counts shown in the summary panel. -/
def generate_summary (images : List ImageRec) (containers : List ContainerRec) : Summary :=
  let running := containers.countP (fun c => c.State == "running")
  { imageCount := images.length
    containerCount := containers.length
    running := running
    stopped := containers.length - running }

/-- monitorfree.py generate_display image bars (lines 169 to 179): maximum
over the full fetched list, then the first five rows are scaled. -/
def display_images_percents (images : List ImageRec) : Option (List ℚ) :=
  if images.isEmpty then some []
  else
    match optTraverse (fun img => parse_size img.Size) images with
    | none => none
    | some sizes =>
        let max_size := listMax sizes
        optTraverse (fun img => (parse_size img.Size).map
            (fun size_mb => if max_size > 0 then size_mb / max_size * 100 else 0))
          (images.take 5)

/-- monitorfree.py generate_display images table (lines 163 to 183) as its
list of body rows: data rows for the first five images, or the explicit
no-images placeholder row when the list is empty. -/
def images_table_rows (images : List ImageRec) : Option (List ImageLine) :=
  match display_images_percents images with
  | none => none
  | some ps =>
      if images.isEmpty then some [ImageLine.noImages]
      else
        some (((images.take 5).zip ps).map (fun ip =>
          ImageLine.row (ip.1.Repository.take 30) (ip.1.Tag.take 15) ip.1.Size
            (create_bar ip.2 15)))

/-- monitorfree.py generate_display containers table (lines 186 to 205) as
its list of body rows: rows for the first five containers, and when the
list is empty an explicit no-containers placeholder row is appended. -/
def containers_table_rows (containers : List ContainerRec) : List ContainerLine :=
  ((containers.take 5).map (fun c =>
    ContainerLine.row (c.Names.take 25) (c.Image.take 25) (c.Status.take 20) c.State))
  ++ (if containers.isEmpty then [ContainerLine.noContainers] else [])

/-- monitorfree.py generate_display inline percentage conversion (lines 148
and 149): float applied to the value with trailing percent signs stripped.
none models the ValueError raised on malformed text. -/
def parse_percent (display : String) : Option ℚ :=
  Py.float ((display.data.reverse.dropWhile (fun c => c == '%')).reverse)

/-- monitorfree.py get_docker_images (lines 19 to 34); see queryShape. -/
def get_docker_images {J : Type} (loads : List Char → Option J) (exitcode : ℕ)
    (stdout : String) : List J :=
  if exitcode ≠ 0 then []
  else
    match optTraverse loads
        ((Py.splitLines (Py.strip stdout.data)).filter (fun l => !l.isEmpty)) with
    | none => []
    | some js => js

/-- monitorfree.py get_docker_containers (lines 36 to 51); see queryShape. -/
def get_docker_containers {J : Type} (loads : List Char → Option J) (exitcode : ℕ)
    (stdout : String) : List J :=
  if exitcode ≠ 0 then []
  else
    match optTraverse loads
        ((Py.splitLines (Py.strip stdout.data)).filter (fun l => !l.isEmpty)) with
    | none => []
    | some js => js

/-- monitorfree.py get_container_stats (lines 53 to 68); see queryShape. -/
def get_container_stats {J : Type} (loads : List Char → Option J) (exitcode : ℕ)
    (stdout : String) : List J :=
  if exitcode ≠ 0 then []
  else
    match optTraverse loads
        ((Py.splitLines (Py.strip stdout.data)).filter (fun l => !l.isEmpty)) with
    | none => []
    | some js => js

/-- monitorfree.py main (lines 214 to 229): same probe-then-loop structure
as monitor.py main.  On probe failure it prints the error and returns, so
the interpreter exits with status 0; on the loop path loopRaises abstracts
an uncaught exception from generate_display (only KeyboardInterrupt is
caught), which ends the process with status 1, while a caught user
interrupt returns with status 0. -/
def main (dockerAvailable : Bool) (loopRaises : Bool) : MainOutcome :=
  if dockerAvailable then
    { printedError := false, enteredLoop := true,
      exitCode := if loopRaises then 1 else 0 }
  else
    { printedError := true, enteredLoop := false, exitCode := 0 }

end MonitorFree

/-- The fail-soft contract of a query function: a non-zero exit yields the
empty list, and any nonempty line on which json loading fails makes the
whole call yield the empty list. -/
def queryFailSoft {J : Type} (f : (List Char → Option J) → ℕ → String → List J) : Prop :=
  ∀ (loads : List Char → Option J) (exitcode : ℕ) (stdout : String),
    (exitcode ≠ 0 → f loads exitcode stdout = []) ∧
    (∀ line, line ∈ Py.splitLines (Py.strip stdout.data) → line ≠ [] →
      loads line = none → f loads exitcode stdout = [])

/-- The bar-rendering contract of claim C9 at one percentage and width:
filled cells are the floor of p over 100 times the width, filled plus empty
cells give back the width, the filled count stays within bounds, the colour
bands are green below 50, yellow from 50 below 75, red from 75 up, and the
monitorfree.py bar agrees with the monitor.py bar. -/
def barOk (p : ℚ) (w : ℤ) : Prop :=
  (Monitor.create_colored_bar p w).filled = ⌊p / 100 * (w : ℚ)⌋ ∧
  (Monitor.create_colored_bar p w).filled + (Monitor.create_colored_bar p w).empty = w ∧
  0 ≤ (Monitor.create_colored_bar p w).filled ∧
  (Monitor.create_colored_bar p w).filled ≤ w ∧
  (p < 50 → (Monitor.create_colored_bar p w).color = BarColor.green) ∧
  (50 ≤ p → p < 75 → (Monitor.create_colored_bar p w).color = BarColor.yellow) ∧
  (75 ≤ p → (Monitor.create_colored_bar p w).color = BarColor.red) ∧
  MonitorFree.create_bar p w = Monitor.create_colored_bar p w

/-! Helper lemmas about the Python primitive models. -/

theorem mem_of_mem_dropWhile {α : Type} (p : α → Bool) :
    ∀ (l : List α) (a : α), a ∈ l.dropWhile p → a ∈ l
  | [], _, h => by simp at h
  | x :: rest, a, h => by
      rw [List.dropWhile_cons] at h
      by_cases hx : p x = true
      · rw [if_pos hx] at h
        exact List.mem_cons_of_mem _ (mem_of_mem_dropWhile p rest a h)
      · rw [if_neg hx] at h
        exact h

theorem Py.strip_subset (l : List Char) (c : Char) (h : c ∈ Py.strip l) : c ∈ l := by
  unfold Py.strip at h
  rw [List.mem_reverse] at h
  have h2 := mem_of_mem_dropWhile _ _ _ h
  rw [List.mem_reverse] at h2
  exact mem_of_mem_dropWhile _ _ _ h2

theorem Py.replace2_subset (a b : Char) :
    ∀ (l : List Char) (c : Char), c ∈ Py.replace2 a b l → c ∈ l
  | [], _, h => by simp [Py.replace2] at h
  | [x], c, h => by simpa [Py.replace2] using h
  | x :: y :: rest, c, h => by
      simp only [Py.replace2] at h
      by_cases hxy : (x == a && y == b) = true
      · rw [if_pos hxy] at h
        exact List.mem_cons_of_mem _ (List.mem_cons_of_mem _ (Py.replace2_subset a b rest c h))
      · rw [if_neg hxy] at h
        rcases List.mem_cons.mp h with rfl | h2
        · exact List.mem_cons_self _ _
        · exact List.mem_cons_of_mem _ (Py.replace2_subset a b (y :: rest) c h2)

theorem Py.floatMag_int (l : List Char) (h1 : l.dropWhile Char.isDigit = [])
    (h2 : l.takeWhile Char.isDigit ≠ []) :
    Py.floatMag l = some (Py.digitsVal (l.takeWhile Char.isDigit) : ℚ) := by
  simp only [Py.floatMag, h1, h2, eq_self_iff_true, if_true, if_false, ite_true, ite_false]

theorem Py.floatMag_frac (l : List Char)
    (h1 : l.dropWhile Char.isDigit ≠ [])
    (h2 : (l.dropWhile Char.isDigit).head? = some '.')
    (h3 : (l.dropWhile Char.isDigit).tail.dropWhile Char.isDigit = [])
    (h4 : l.takeWhile Char.isDigit ≠ [] ∨
      (l.dropWhile Char.isDigit).tail.takeWhile Char.isDigit ≠ []) :
    Py.floatMag l = some ((Py.digitsVal (l.takeWhile Char.isDigit) : ℚ) +
      (Py.digitsVal ((l.dropWhile Char.isDigit).tail.takeWhile Char.isDigit) : ℚ) /
        (10 : ℚ) ^ ((l.dropWhile Char.isDigit).tail.takeWhile Char.isDigit).length) := by
  simp only [Py.floatMag, h1, h2, h3, h4, eq_self_iff_true, if_true, if_false, ite_true,
    ite_false, and_true, true_and, and_self]

theorem Py.float_nosign (l : List Char)
    (h1 : (Py.strip l).head? ≠ some '-') (h2 : (Py.strip l).head? ≠ some '+') :
    Py.float l = Py.floatMag (Py.strip l) := by
  simp only [Py.float, h1, h2, if_false, ite_false]

theorem Py.floatMag_nonneg (l : List Char) (m : ℚ) (h : Py.floatMag l = some m) : 0 ≤ m := by
  simp only [Py.floatMag] at h
  split at h
  · split at h
    · exact absurd h (by simp)
    · simp only [Option.some.injEq] at h
      subst h
      positivity
  · split at h
    · split at h
      · simp only [Option.some.injEq] at h
        subst h
        positivity
      · exact absurd h (by simp)
    · exact absurd h (by simp)

theorem Py.float_nonneg (l : List Char) (q : ℚ) (h : Py.float l = some q)
    (hm : '-' ∉ l) : 0 ≤ q := by
  have hm2 : '-' ∉ Py.strip l := fun hc => hm (Py.strip_subset l '-' hc)
  have hh : (Py.strip l).head? ≠ some '-' := by
    intro hc
    cases hsl : Py.strip l with
    | nil => rw [hsl] at hc; simp at hc
    | cons x rest =>
        rw [hsl] at hc
        simp only [List.head?_cons, Option.some.injEq] at hc
        rw [hsl, hc] at hm2
        exact hm2 (List.mem_cons_self _ _)
  simp only [Py.float, hh, if_false, ite_false] at h
  split at h
  · exact Py.floatMag_nonneg _ _ h
  · exact Py.floatMag_nonneg _ _ h

/-! Helper lemmas about optTraverse and the query shape. -/

theorem optTraverse_eq_none {α β : Type} (f : α → Option β) :
    ∀ (l : List α) (a : α), a ∈ l → f a = none → optTraverse f l = none
  | [], a, ha, _ => absurd ha (List.not_mem_nil a)
  | x :: rest, a, ha, hf => by
      simp only [optTraverse]
      rcases List.mem_cons.mp ha with rfl | h2
      · rw [hf]
      · rw [optTraverse_eq_none f rest a h2 hf]
        cases f x <;> rfl

theorem optTraverse_map {α β γ : Type} (f : α → Option β) (g : β → γ) :
    ∀ (l : List α) (r : List β), optTraverse f l = some r →
      optTraverse (fun a => (f a).map g) l = some (r.map g)
  | [], r, h => by
      simp only [optTraverse, Option.some.injEq] at h
      subst h
      rfl
  | x :: rest, r, h => by
      cases hfx : f x with
      | none => simp [optTraverse, hfx] at h
      | some b =>
          cases hrest : optTraverse f rest with
          | none => simp [optTraverse, hfx, hrest] at h
          | some bs =>
              simp only [optTraverse, hfx, hrest, Option.some.injEq] at h
              subst h
              simp only [optTraverse, hfx, Option.map_some', List.map_cons,
                optTraverse_map f g rest bs hrest]

theorem optTraverse_take {α β : Type} (f : α → Option β) :
    ∀ (l : List α) (r : List β), optTraverse f l = some r →
      ∀ n : ℕ, optTraverse f (l.take n) = some (r.take n)
  | [], r, h, n => by
      simp only [optTraverse, Option.some.injEq] at h
      subst h
      simp [optTraverse]
  | x :: rest, r, h, 0 => by simp [optTraverse]
  | x :: rest, r, h, n + 1 => by
      cases hfx : f x with
      | none => simp [optTraverse, hfx] at h
      | some b =>
          cases hrest : optTraverse f rest with
          | none => simp [optTraverse, hfx, hrest] at h
          | some bs =>
              simp only [optTraverse, hfx, hrest, Option.some.injEq] at h
              subst h
              simp only [List.take_succ_cons, optTraverse, hfx,
                optTraverse_take f rest bs hrest n]

theorem queryShape_fail_soft {J : Type} : queryFailSoft (@queryShape J) := by
  intro loads exitcode stdout
  refine ⟨fun h => ?_, fun line hmem hne hload => ?_⟩
  · simp only [queryShape, if_pos h]
  · by_cases he : exitcode ≠ 0
    · simp only [queryShape, if_pos he]
    · have hnone : optTraverse loads
          ((Py.splitLines (Py.strip stdout.data)).filter (fun l => !l.isEmpty)) = none := by
        refine optTraverse_eq_none loads _ line ?_ hload
        refine List.mem_filter.mpr ⟨hmem, ?_⟩
        cases line with
        | nil => exact absurd rfl hne
        | cons c cs => rfl
      simp only [queryShape, if_neg he, hnone]

/-! Concrete evaluations of the numeric conversions. -/

theorem parse_size_gb_eval (s : String) (v : ℚ)
    (h1 : Py.contains2 'G' 'B' (Py.strip s.data) = true)
    (h2 : Py.float (Py.replace2 'G' 'B' (Py.strip s.data)) = some v) :
    Monitor.parse_size s = some (v * 1024) := by
  simp only [Monitor.parse_size, h1, h2, eq_self_iff_true, if_true, ite_true, Option.map_some']

theorem parse_size_kb_eval (s : String) (v : ℚ)
    (h1 : Py.contains2 'G' 'B' (Py.strip s.data) = false)
    (h2 : Py.contains2 'M' 'B' (Py.strip s.data) = false)
    (h3 : Py.contains2 'K' 'B' (Py.strip s.data) = true)
    (h4 : Py.float (Py.replace2 'K' 'B' (Py.strip s.data)) = some v) :
    Monitor.parse_size s = some (v / 1024) := by
  simp only [Monitor.parse_size, h1, h2, h3, h4, eq_self_iff_true, if_true, ite_true,
    if_false, ite_false, Bool.false_eq_true, Option.map_some']

theorem float_chars_2 : Py.float ['2'] = some 2 := by
  rw [Py.float_nosign ['2'] (by decide) (by decide),
    show Py.strip ['2'] = ['2'] from by decide,
    Py.floatMag_int ['2'] (by decide) (by decide)]
  norm_num [show List.takeWhile Char.isDigit ['2'] = ['2'] from by decide,
    show Py.digitsVal ['2'] = 2 from by decide]

theorem float_chars_12 : Py.float ['1', '2'] = some 12 := by
  rw [Py.float_nosign ['1', '2'] (by decide) (by decide),
    show Py.strip ['1', '2'] = ['1', '2'] from by decide,
    Py.floatMag_int ['1', '2'] (by decide) (by decide)]
  norm_num [show List.takeWhile Char.isDigit ['1', '2'] = ['1', '2'] from by decide,
    show Py.digitsVal ['1', '2'] = 12 from by decide]

theorem float_chars_256 : Py.float ['2', '5', '6'] = some 256 := by
  rw [Py.float_nosign ['2', '5', '6'] (by decide) (by decide),
    show Py.strip ['2', '5', '6'] = ['2', '5', '6'] from by decide,
    Py.floatMag_int ['2', '5', '6'] (by decide) (by decide)]
  norm_num [show List.takeWhile Char.isDigit ['2', '5', '6'] = ['2', '5', '6'] from by decide,
    show Py.digitsVal ['2', '5', '6'] = 256 from by decide]

theorem float_chars_15 : Py.float ['1', '.', '5'] = some (3 / 2) := by
  rw [Py.float_nosign ['1', '.', '5'] (by decide) (by decide),
    show Py.strip ['1', '.', '5'] = ['1', '.', '5'] from by decide,
    Py.floatMag_frac ['1', '.', '5'] (by decide) (by decide) (by decide) (by decide)]
  norm_num [show List.takeWhile Char.isDigit ['1', '.', '5'] = ['1'] from by decide,
    show List.dropWhile Char.isDigit ['1', '.', '5'] = ['.', '5'] from by decide,
    show List.takeWhile Char.isDigit ['5'] = ['5'] from by decide,
    show Py.digitsVal ['1'] = 1 from by decide,
    show Py.digitsVal ['5'] = 5 from by decide]

theorem float_chars_735 : Py.float ['7', '3', '.', '5'] = some (147 / 2) := by
  rw [Py.float_nosign ['7', '3', '.', '5'] (by decide) (by decide),
    show Py.strip ['7', '3', '.', '5'] = ['7', '3', '.', '5'] from by decide,
    Py.floatMag_frac ['7', '3', '.', '5'] (by decide) (by decide) (by decide) (by decide)]
  norm_num [show List.takeWhile Char.isDigit ['7', '3', '.', '5'] = ['7', '3'] from by decide,
    show List.dropWhile Char.isDigit ['7', '3', '.', '5'] = ['.', '5'] from by decide,
    show List.takeWhile Char.isDigit ['5'] = ['5'] from by decide,
    show Py.digitsVal ['7', '3'] = 73 from by decide,
    show Py.digitsVal ['5'] = 5 from by decide]

theorem ps_2GB : Monitor.parse_size "2GB" = some 2048 := by
  have h := parse_size_gb_eval "2GB" 2 (by decide)
    (by rw [show Py.replace2 'G' 'B' (Py.strip "2GB".data) = ['2'] from by decide]
        exact float_chars_2)
  rw [h]
  norm_num

theorem ps_GB15 : Monitor.parse_size "GB1.5" = some 1536 := by
  have h := parse_size_gb_eval "GB1.5" (3 / 2) (by decide)
    (by rw [show Py.replace2 'G' 'B' (Py.strip "GB1.5".data) = ['1', '.', '5'] from by decide]
        exact float_chars_15)
  rw [h]
  norm_num

theorem ps_1GB2GB : Monitor.parse_size "1GB2GB" = some 12288 := by
  have h := parse_size_gb_eval "1GB2GB" 12 (by decide)
    (by rw [show Py.replace2 'G' 'B' (Py.strip "1GB2GB".data) = ['1', '2'] from by decide]
        exact float_chars_12)
  rw [h]
  norm_num

theorem ps_256KB : Monitor.parse_size "256KB" = some (1 / 4) := by
  have h := parse_size_kb_eval "256KB" 256 (by decide) (by decide) (by decide)
    (by rw [show Py.replace2 'K' 'B' (Py.strip "256KB".data) = ['2', '5', '6'] from by decide]
        exact float_chars_256)
  rw [h]
  norm_num

theorem ps_512MB : Monitor.parse_size "512MB" = some 512 := by decide

theorem percent_735 : Monitor.parse_percent "73.5%" = some (147 / 2) := by
  rw [Monitor.parse_percent,
    show ("73.5%".data.reverse.dropWhile (fun c => c == '%')).reverse
      = ['7', '3', '.', '5'] from by decide]
  exact float_chars_735

theorem optTraverse_sizes_example :
    optTraverse (fun img => Monitor.parse_size img.Size)
      ([⟨"a", "t", "2GB"⟩, ⟨"b", "u", "512MB"⟩] : List ImageRec) = some [2048, 512] := by
  simp only [optTraverse, ps_2GB, ps_512MB]

theorem listMax_example : listMax [(2048 : ℚ), 512] = 2048 := by
  rw [listMax]
  simp only [List.foldl]
  norm_num [max_def]

theorem display_images_percents_example :
    Monitor.display_images_percents
      ([⟨"a", "t", "2GB"⟩, ⟨"b", "u", "512MB"⟩] : List ImageRec) = some [100, 25] := by
  simp only [Monitor.display_images_percents, List.isEmpty_cons, Bool.false_eq_true,
    if_false, ite_false, optTraverse, ps_2GB, ps_512MB, List.take_succ_cons,
    List.take_nil, Option.map_some', listMax_example]
  norm_num

theorem display_images_percents_free_example :
    MonitorFree.display_images_percents
      ([⟨"a", "t", "2GB"⟩, ⟨"b", "u", "512MB"⟩] : List ImageRec) = some [100, 25] := by
  have hMF : MonitorFree.parse_size = Monitor.parse_size := rfl
  simp only [MonitorFree.display_images_percents, hMF, List.isEmpty_cons, Bool.false_eq_true,
    if_false, ite_false, optTraverse, ps_2GB, ps_512MB, List.take_succ_cons,
    List.take_nil, Option.map_some', listMax_example]
  norm_num

/-! Claim theorems. -/

/-- C1 (code bug evidence): parse_size is not total.  On the input xGB the
unit GB is recognized but the float builtin is applied to the non-numeral
x, so the ValueError propagates (modelled as none) instead of the specified
safe default 0.  Both variants behave identically. -/
theorem parse_size_raises_on_invalid_numeral :
    Monitor.parse_size "xGB" = none ∧ MonitorFree.parse_size "xGB" = none := by
  decide

/-- C2 (code bug evidence): the inline percent conversion is not total.  A
well-formed value such as 73.5 followed by the percent sign parses, but on
malformed text such as abc the float builtin raises (modelled as none)
instead of returning the specified safe default 0.  Both variants behave
identically. -/
theorem parse_percent_raises_on_malformed :
    Monitor.parse_percent "73.5%" = some (147 / 2) ∧
    Monitor.parse_percent "abc" = none ∧
    MonitorFree.parse_percent "abc" = none :=
  ⟨percent_735, by decide, by decide⟩

/-- C3 (counterexample): when the availability probe fails, main prints the
message and plainly returns, so the process exit status is 0 in both
variants, not the non-zero status the claim requires. -/
theorem startup_failure_exits_zero :
    (Monitor.main false false).exitCode = 0 ∧
    (MonitorFree.main false false).exitCode = 0 := by
  decide

/-- C3 (amended): when the availability probe fails the program prints a
clear user-visible message and never enters the main loop, but it
terminates with exit status 0 rather than a non-zero one, in both variants,
irrespective of what the loop path would have done. -/
theorem startup_failure_behavior :
    ∀ loopRaises : Bool,
      (Monitor.main false loopRaises).printedError = true ∧
      (Monitor.main false loopRaises).enteredLoop = false ∧
      (Monitor.main false loopRaises).exitCode = 0 ∧
      (MonitorFree.main false loopRaises).printedError = true ∧
      (MonitorFree.main false loopRaises).enteredLoop = false ∧
      (MonitorFree.main false loopRaises).exitCode = 0 := by
  decide

/-- C4: in both variants each displayed bar percentage equals the image
size divided by the maximum over the full fetched list (computed before the
top-N truncation), times 100, and when the fetched sequence is empty or the
maximum is 0 every scaled value is 0 with no division error. -/
theorem image_bars_scaled_to_full_set_max
    (images : List ImageRec) (sizes ps psf : List ℚ)
    (hs : optTraverse (fun img => Monitor.parse_size img.Size) images = some sizes)
    (hp : Monitor.display_images_percents images = some ps)
    (hpf : MonitorFree.display_images_percents images = some psf) :
    ps = (sizes.take 8).map
      (fun s => if listMax sizes > 0 then s / listMax sizes * 100 else 0) ∧
    psf = (sizes.take 5).map
      (fun s => if listMax sizes > 0 then s / listMax sizes * 100 else 0) ∧
    ((images = [] ∨ listMax sizes = 0) →
      (∀ p ∈ ps, p = 0) ∧ (∀ p ∈ psf, p = 0)) := by
  rcases images with _ | ⟨i, is⟩
  · simp only [optTraverse, Option.some.injEq] at hs
    simp only [Monitor.display_images_percents, List.isEmpty_nil, if_true, ite_true,
      Option.some.injEq] at hp
    simp only [MonitorFree.display_images_percents, List.isEmpty_nil, if_true, ite_true,
      Option.some.injEq] at hpf
    subst hs
    subst hp
    subst hpf
    simp
  · have hMF : MonitorFree.parse_size = Monitor.parse_size := rfl
    simp only [Monitor.display_images_percents, List.isEmpty_cons, Bool.false_eq_true,
      if_false, ite_false, hs] at hp
    simp only [MonitorFree.display_images_percents, hMF, List.isEmpty_cons, Bool.false_eq_true,
      if_false, ite_false, hs] at hpf
    have h8 := optTraverse_map (fun img => Monitor.parse_size img.Size)
      (fun size_mb => if listMax sizes > 0 then size_mb / listMax sizes * 100 else 0)
      ((i :: is).take 8) (sizes.take 8)
      (optTraverse_take (fun img => Monitor.parse_size img.Size) (i :: is) sizes hs 8)
    have h5 := optTraverse_map (fun img => Monitor.parse_size img.Size)
      (fun size_mb => if listMax sizes > 0 then size_mb / listMax sizes * 100 else 0)
      ((i :: is).take 5) (sizes.take 5)
      (optTraverse_take (fun img => Monitor.parse_size img.Size) (i :: is) sizes hs 5)
    have hps : ps = (sizes.take 8).map
        (fun s => if listMax sizes > 0 then s / listMax sizes * 100 else 0) :=
      Option.some.inj (hp.symm.trans h8)
    have hpsf : psf = (sizes.take 5).map
        (fun s => if listMax sizes > 0 then s / listMax sizes * 100 else 0) :=
      Option.some.inj (hpf.symm.trans h5)
    refine ⟨hps, hpsf, ?_⟩
    rintro (h0 | h0)
    · exact absurd h0 (List.cons_ne_nil i is)
    · subst hps
      subst hpsf
      constructor
      · intro p hmem
        rcases List.mem_map.mp hmem with ⟨sv, hsv, rfl⟩
        simp [h0]
      · intro p hmem
        rcases List.mem_map.mp hmem with ⟨sv, hsv, rfl⟩
        simp [h0]

/-- C4 (witness): the scaling theorem applied at a concrete two-image
fetch whose sizes are 2GB and 512MB. -/
theorem image_bars_scaled_witness :
    ([100, 25] : List ℚ) = (([2048, 512] : List ℚ).take 8).map
      (fun s => if listMax [(2048 : ℚ), 512] > 0
        then s / listMax [(2048 : ℚ), 512] * 100 else 0) ∧
    ([100, 25] : List ℚ) = (([2048, 512] : List ℚ).take 5).map
      (fun s => if listMax [(2048 : ℚ), 512] > 0
        then s / listMax [(2048 : ℚ), 512] * 100 else 0) ∧
    (([⟨"a", "t", "2GB"⟩, ⟨"b", "u", "512MB"⟩] : List ImageRec) = []
        ∨ listMax [(2048 : ℚ), 512] = 0 →
      (∀ p ∈ ([100, 25] : List ℚ), p = 0) ∧ (∀ p ∈ ([100, 25] : List ℚ), p = 0)) :=
  image_bars_scaled_to_full_set_max ([⟨"a", "t", "2GB"⟩, ⟨"b", "u", "512MB"⟩] : List ImageRec)
    [2048, 512] [100, 25] [100, 25] optTraverse_sizes_example
    display_images_percents_example display_images_percents_free_example

/-- C5: each of the six data-source query functions fails soft: on non-zero
exit it returns the empty list, and any nonempty stdout line whose json
parse fails makes the whole call return the empty list rather than partial
results; the functions are total by construction, so no exception crosses
the boundary and the caller always receives a value. -/
theorem queries_fail_soft (J : Type) :
    queryFailSoft (@Monitor.get_docker_images J) ∧
    queryFailSoft (@Monitor.get_docker_containers J) ∧
    queryFailSoft (@Monitor.get_container_stats J) ∧
    queryFailSoft (@MonitorFree.get_docker_images J) ∧
    queryFailSoft (@MonitorFree.get_docker_containers J) ∧
    queryFailSoft (@MonitorFree.get_container_stats J) :=
  ⟨queryShape_fail_soft, queryShape_fail_soft, queryShape_fail_soft,
    queryShape_fail_soft, queryShape_fail_soft, queryShape_fail_soft⟩

/-- C5 (witness): a concrete call whose single stdout line fails to parse
returns the empty list. -/
theorem queries_fail_soft_witness :
    Monitor.get_docker_images (fun _ => (none : Option ℕ)) 0 "bad" = [] :=
  ((queries_fail_soft ℕ).1 (fun _ => none) 0 "bad").2 "bad".data (by decide) (by decide) rfl

/-- C6 (counterexample): with zero containers the monitor.py container
panel body is empty: it renders no explicit no-data placeholder line,
contrary to the claim that the container panel shows one. -/
theorem empty_containers_panel_has_no_placeholder :
    Monitor.display_containers_body [] = [] ∧
    ContainerLine.noContainers ∉ Monitor.display_containers_body [] := by
  decide

/-- C6 (amended): with zero images and zero containers, the summary counts
are all zero and every panel evaluates without crashing in both variants;
the image panel shows an explicit placeholder in both variants, but the
container panel shows one only in monitorfree.py, while monitor.py renders
an empty container table with no placeholder line. -/
theorem empty_runtime_rendering :
    Monitor.display_summary [] [] = ⟨0, 0, 0, 0⟩ ∧
    Monitor.display_images_body [] = some [ImageLine.noImages] ∧
    Monitor.display_containers_body [] = [] ∧
    MonitorFree.generate_summary [] [] = ⟨0, 0, 0, 0⟩ ∧
    MonitorFree.images_table_rows [] = some [ImageLine.noImages] ∧
    MonitorFree.containers_table_rows [] = [ContainerLine.noContainers] := by
  decide

/-- C7: for every built summary, running plus stopped equals the container
count, the container count is the length of the full fetched list (the
pre-truncation count), and running counts exactly the containers whose
state is the string running; the two variants compute the same summary. -/
theorem summary_count_invariant (images : List ImageRec) (containers : List ContainerRec) :
    (Monitor.display_summary images containers).running
        + (Monitor.display_summary images containers).stopped
      = (Monitor.display_summary images containers).containerCount ∧
    (Monitor.display_summary images containers).containerCount = containers.length ∧
    (Monitor.display_summary images containers).running
      = (containers.filter (fun c => c.State == "running")).length ∧
    MonitorFree.generate_summary images containers
      = Monitor.display_summary images containers := by
  refine ⟨?_, rfl, ?_, rfl⟩
  · show containers.countP (fun c => c.State == "running")
        + (containers.length - containers.countP (fun c => c.State == "running"))
      = containers.length
    have hle : containers.countP (fun c => c.State == "running") ≤ containers.length :=
      List.countP_le_length _
    omega
  · exact List.countP_eq_length_filter _ _

/-- C8 (counterexample): parse_size output is not non-negative for every
recognized-unit string, and an unparsable numeric portion does not map to
0: a leading minus sign yields a negative result, and a non-numeral with a
recognized unit raises (modelled as none). -/
theorem parse_size_negative_output :
    (Monitor.parse_size "-1MB" = some (-1) ∧ (-1 : ℚ) < 0) ∧
    Monitor.parse_size "zzGB" = none :=
  ⟨⟨by decide, by norm_num⟩, by decide⟩

/-- C8 (amended): parse_size matches the documented conversions, 2GB to
2048, 512MB to 512, 256KB to one quarter, and a string with no recognized
unit maps to 0; the GB branch applies whenever GB occurs as a substring,
before MB and KB are even considered; and the output is non-negative
whenever the input contains no minus character (a negative numeral yields a
negative output, and an unparsable numeral raises rather than giving 0, so
the unconditional original claims fail); monitorfree.py parse_size is the
same function. -/
theorem parse_size_documented_conversions :
    Monitor.parse_size "2GB" = some 2048 ∧
    Monitor.parse_size "512MB" = some 512 ∧
    Monitor.parse_size "256KB" = some (1 / 4) ∧
    Monitor.parse_size "1.5TB" = some 0 ∧
    (∀ s : String, Py.contains2 'G' 'B' (Py.strip s.data) = true →
      Monitor.parse_size s =
        (Py.float (Py.replace2 'G' 'B' (Py.strip s.data))).map (fun v => v * 1024)) ∧
    (∀ (s : String) (q : ℚ), Monitor.parse_size s = some q → '-' ∉ s.data → 0 ≤ q) ∧
    MonitorFree.parse_size = Monitor.parse_size := by
  refine ⟨ps_2GB, ps_512MB, ps_256KB, by decide, ?_, ?_, rfl⟩
  · intro s h
    simp only [Monitor.parse_size, h, eq_self_iff_true, if_true, ite_true]
  · intro s q h hm
    have hm1 : '-' ∉ Py.strip s.data := fun hc => hm (Py.strip_subset _ _ hc)
    simp only [Monitor.parse_size] at h
    split at h
    · rw [Option.map_eq_some'] at h
      obtain ⟨v, hv, rfl⟩ := h
      have h0 : (0 : ℚ) ≤ v := Py.float_nonneg _ _ hv
        (fun hc => hm1 (Py.replace2_subset _ _ _ _ hc))
      exact mul_nonneg h0 (by norm_num)
    · split at h
      · exact Py.float_nonneg _ _ h (fun hc => hm1 (Py.replace2_subset _ _ _ _ hc))
      · split at h
        · rw [Option.map_eq_some'] at h
          obtain ⟨v, hv, rfl⟩ := h
          have h0 : (0 : ℚ) ≤ v := Py.float_nonneg _ _ hv
            (fun hc => hm1 (Py.replace2_subset _ _ _ _ hc))
          exact div_nonneg h0 (by norm_num)
        · simp only [Option.some.injEq] at h
          exact le_of_eq h

/-- C8 (witness): the GB-priority clause applied at a concrete string that
contains both GB and MB as substrings: the GB conversion is applied. -/
theorem parse_size_documented_conversions_witness :
    Monitor.parse_size "1MBGB" =
      (Py.float (Py.replace2 'G' 'B' (Py.strip "1MBGB".data))).map (fun v => v * 1024) :=
  parse_size_documented_conversions.2.2.2.2.1 "1MBGB" (by decide)

/-- C9: for a percentage between 0 and 100 and a non-negative width, the
bar has floor of p over 100 times width filled cells, the remaining cells
empty, the filled count within bounds, and the colour band green below 50,
yellow from 50 below 75, red from 75; the monitorfree.py bar is the same. -/
theorem bar_rendering_spec (p : ℚ) (w : ℤ) (hp0 : 0 ≤ p) (hp1 : p ≤ 100) (hw : 0 ≤ w) :
    barOk p w := by
  have hwq : (0 : ℚ) ≤ (w : ℚ) := by exact_mod_cast hw
  have hq : (0 : ℚ) ≤ p / 100 * (w : ℚ) := mul_nonneg (div_nonneg hp0 (by norm_num)) hwq
  have hfl : (Monitor.create_colored_bar p w).filled = ⌊p / 100 * (w : ℚ)⌋ := by
    show Py.int (p / 100 * (w : ℚ)) = ⌊p / 100 * (w : ℚ)⌋
    rw [Py.int, if_pos hq]
  refine ⟨hfl, ?_, ?_, ?_, ?_, ?_, ?_, rfl⟩
  · show Py.int (p / 100 * (w : ℚ)) + (w - Py.int (p / 100 * (w : ℚ))) = w
    ring
  · rw [hfl]
    exact Int.floor_nonneg.mpr hq
  · rw [hfl]
    have hle : p / 100 * (w : ℚ) ≤ (w : ℚ) :=
      mul_le_of_le_one_left hwq ((div_le_one (by norm_num)).mpr hp1)
    calc ⌊p / 100 * (w : ℚ)⌋ ≤ ⌊(w : ℚ)⌋ := Int.floor_le_floor hle
      _ = w := Int.floor_intCast w
  · intro h
    show (if p < 50 then BarColor.green else if p < 75 then BarColor.yellow else BarColor.red)
        = BarColor.green
    rw [if_pos h]
  · intro h1 h2
    show (if p < 50 then BarColor.green else if p < 75 then BarColor.yellow else BarColor.red)
        = BarColor.yellow
    rw [if_neg (not_lt.mpr h1), if_pos h2]
  · intro h
    show (if p < 50 then BarColor.green else if p < 75 then BarColor.yellow else BarColor.red)
        = BarColor.red
    rw [if_neg (not_lt.mpr (by linarith)), if_neg (not_lt.mpr h)]

/-- C9 (witness): the bar contract at percentage 60 and width 20. -/
theorem bar_rendering_spec_witness : barOk 60 20 :=
  bar_rendering_spec 60 20 (by norm_num) (by norm_num) (by norm_num)

/-- C10: the unit match of parse_size is a substring test anywhere in the
input, not a suffix test, and a match deletes every occurrence of the unit
before numeric parsing: a leading GB still converts (GB1.5 gives 1536) and
the digits left by deleting multiple occurrences concatenate into one
numeral (1GB2GB gives 12288), identically in both variants. -/
theorem parse_size_substring_match_semantics :
    Monitor.parse_size "GB1.5" = some 1536 ∧
    Monitor.parse_size "1GB2GB" = some 12288 ∧
    MonitorFree.parse_size "GB1.5" = some 1536 ∧
    MonitorFree.parse_size "1GB2GB" = some 12288 :=
  ⟨ps_GB15, ps_1GB2GB, ps_GB15, ps_1GB2GB⟩
